import Mathlib

/-!
# Verification of the ftrace Android trace-analysis component

Shallow embedding of `src/components/android.py` (class `Android`): the
tag dispatcher, the three correlators (context / async / counter), the
interval index, and the metric derivations (frame rate, jank, input
latency, app-launch latency emission).

Timestamps and counter values are Python floats in the source; they are
embedded as exact rationals (`ℚ`).  Python exceptions are embedded as an
`Except` error channel.  External collaborators (the `Interval` /
`IntervalList` arithmetic, `sorted_items`, `filter_by_task`, the CPU
scheduling lookup and the memoizing result cache) are not under `src/`;
where a definition models one of them it is marked `Modelled from the
spec:` in its doc comment.
-/

namespace Ftrace

/-- Python exceptions that the embedded code can raise (`attributeError`
for a payload lacking a field fetched by a handler, `typeError` for
arithmetic on `None`, `zeroDivisionError` for `x / 0.0`).
`undefinedMetric` — Modelled from the spec: the distinct, non-fatal
"UndefinedMetric" condition of spec §7; the embedded source never
produces it, it exists so that statements can distinguish it from the
generic arithmetic fault. -/
inductive PyError
  | attributeError
  | typeError
  | keyError
  | zeroDivisionError
  | undefinedMetric
deriving DecidableEq, Repr

/-- Modelled from the spec: the external `Interval` collaborator,
`{start, end}` with `duration = end − start` (spec §6).  `end` is a Lean
keyword, so the field is named `stop`. -/
structure Interval where
  start : ℚ
  stop : ℚ
deriving DecidableEq, Repr

def Interval.duration (i : Interval) : ℚ := i.stop - i.start

/-- Modelled from the spec: overlap test used by `IntervalList.slice`
(spec §6: "the sub-ranges overlapping `window`").  Half-open ranges
`[start, stop)` overlap when each one starts before the other stops. -/
def Interval.overlapsB (a w : Interval) : Bool :=
  decide (a.start < w.stop) && decide (w.start < a.stop)

/-- A task as seen by the trace source: `(pid, name)`. -/
structure Task where
  pid : Int
  name : String
deriving DecidableEq, Repr

/-- The atrace tag embedded in a `tracing_mark_write` payload
(`ftrace.atrace.AtraceTag`). -/
inductive AtraceTag
  | CONTEXT_BEGIN
  | CONTEXT_END
  | ASYNC_BEGIN
  | ASYNC_END
  | COUNTER
deriving DecidableEq, Repr

/-- The tag-specific payload (`event.data`).  `pid` is always present;
`cookie`, `section_name`, `counter_name` and `value` are optional —
fetching a missing one raises `attributeError`, as attribute access on
the parsed payload does in the source. -/
structure EventData where
  atrace_tag : AtraceTag
  pid : Int
  cookie : Option Int
  section_name : Option String
  counter_name : Option String
  value : Option ℚ
deriving DecidableEq, Repr

/-- A trace event (external `TraceEvent`, spec §6). -/
structure Event where
  timestamp : ℚ
  task : Task
  tracepoint : String
  data : EventData
deriving DecidableEq, Repr

/-- `Context` namedtuple (android.py line 41). -/
structure Context where
  pid : Int
  name : String
  interval : Interval
  event : Event
deriving DecidableEq, Repr

/-- `Counter` namedtuple (android.py line 42).  Its `event` field can be
Python `None` (the counter handler's `last_event` starts as `None`). -/
structure Counter where
  pid : Int
  name : String
  value : ℚ
  interval : Interval
  event : Option Event
deriving DecidableEq, Repr

/-- `LaunchLatency` namedtuple (android.py line 44). -/
structure LaunchLatency where
  task : Task
  interval : Interval
  latency : ℚ
deriving DecidableEq, Repr

/-- `InputLatency` namedtuple (android.py line 45). -/
structure InputLatency where
  interval : Interval
  latency : ℚ
deriving DecidableEq, Repr

/-- An entry of the interval index `_tmw_intervals_by_name`: a span
(`Context`) or a counter sample (`Counter`). -/
inductive TMWEntry
  | ctx (c : Context)
  | ctr (c : Counter)
deriving DecidableEq, Repr

def TMWEntry.interval : TMWEntry → Interval
  | .ctx c => c.interval
  | .ctr c => c.interval

def TMWEntry.event : TMWEntry → Option Event
  | .ctx c => some c.event
  | .ctr c => c.event

/-! ## Association-list model of Python dicts

The source keeps its per-key state in `defaultdict`s.  They are embedded
as insertion-ordered association lists; Python 2 dict iteration order is
implementation-defined, it is modelled here as first-insertion order
(every statement proved below is insensitive to key iteration order). -/

section AList

variable {κ : Type} {α : Type} [DecidableEq κ]

/-- Plain dict lookup (no default insertion). -/
def alLookup : List (κ × α) → κ → Option α
  | [], _ => none
  | (k', v) :: rest, k => if k' = k then some v else alLookup rest k

/-- `defaultdict.__getitem__`: return the value under `k`, inserting an
empty list first when `k` is absent (this read-side insertion is what
the source's `d[k]` does). -/
def alGet : List (κ × List α) → κ → List α × List (κ × List α)
  | [], k => ([], [(k, [])])
  | (k', v) :: rest, k =>
    if k' = k then (v, (k', v) :: rest)
    else
      let p := alGet rest k
      (p.1, (k', v) :: p.2)

/-- `d[k].append(x)` on a `defaultdict` of lists. -/
def alAppend : List (κ × List α) → κ → α → List (κ × List α)
  | [], k, x => [(k, [x])]
  | (k', v) :: rest, k, x =>
    if k' = k then (k', v ++ [x]) :: rest
    else (k', v) :: alAppend rest k x

/-- `d[k] = v`: replace the value under `k`, appending the key when
absent. -/
def alSet : List (κ × α) → κ → α → List (κ × α)
  | [], k, v => [(k, v)]
  | (k', v') :: rest, k, v =>
    if k' = k then (k', v) :: rest
    else (k', v') :: alSet rest k v

end AList

/-! ## The interval index -/

/-- `self._tmw_intervals_by_name`, a `defaultdict(IntervalList)`.
Modelled from the spec: the external `IntervalList` is embedded as a
plain Lean list with end-append; the source appends each produced entry
(spec §3 keeps a name's entries ascending by start time — in every
statement below appends under one name occur in ascending start order,
so the plain append agrees). -/
abbrev Index := List (String × List TMWEntry)

/-! ## Correlator state and transition steps

The source implements the three correlators as coroutines
(`_context_handler`, `_async_event_handler`, `_counter_handler`); their
local variables become the fields below, the `(yield)` body becomes a
`..._step` function and the `GeneratorExit` teardown becomes a
`..._finalize` function (spec §5 prescribes exactly this `feed` /
`finalize` reading).

Faithfulness notes on the source's data layout:
* the async handler builds `counter_events_by_pid =
  defaultdict(lambda : counter_events_by_cookie)` — every pid maps to
  the *same* shared cookie-keyed dict, so the embedding keeps one shared
  `async_by_cookie` list plus the list of outer keys `async_pids`;
* the counter handler has the same layout (`async`→`ctr`,
  cookie→counter name), plus the handler-level carry variables
  `last_timestamp` / `last_value` / `last_event`;
* the context handler's `last_timestamp` / `last_event` locals are
  written and read only inside a single iteration, so they carry no
  state and are not fields. -/
structure TMWState where
  /-- context handler: `counter_events_by_pid`, a per-pid stack. -/
  ctx_stacks : List (Int × List Event)
  /-- async handler: the single shared `counter_events_by_cookie`. -/
  async_by_cookie : List (Int × List Event)
  /-- async handler: keys of the outer `counter_events_by_pid`. -/
  async_pids : List Int
  /-- counter handler: the single shared `counter_events_by_name`. -/
  ctr_by_name : List (String × List Event)
  /-- counter handler: keys of the outer `counter_events_by_pid`. -/
  ctr_pids : List Int
  /-- counter handler local `last_timestamp` (init `0.0`). -/
  ctr_last_timestamp : ℚ
  /-- counter handler local `last_value` (init `-1.0`). -/
  ctr_last_value : ℚ
  /-- counter handler local `last_event` (init `None`). -/
  ctr_last_event : Option Event
  /-- the interval index the handlers append into. -/
  tmw : Index
  /-- number of `log.warn("Missing start marker ...")` reports. -/
  warnings : Nat
deriving DecidableEq, Repr

def initTMW : TMWState :=
  { ctx_stacks := [], async_by_cookie := [], async_pids := [],
    ctr_by_name := [], ctr_pids := [], ctr_last_timestamp := 0,
    ctr_last_value := -1, ctr_last_event := none, tmw := [], warnings := 0 }

/-- One `(yield)` iteration of `_context_handler` (android.py 383-399). -/
def _context_handler_step (st : TMWState) (event : Event) :
    Except PyError TMWState :=
  let pid := event.task.pid
  match event.data.atrace_tag with
  | .CONTEXT_BEGIN =>
    .ok { st with ctx_stacks := alAppend st.ctx_stacks pid event }
  | .CONTEXT_END =>
    -- the truthiness test `counter_events_by_pid[pid]` reads (and, being
    -- a defaultdict, inserts) the pid's stack
    let p := alGet st.ctx_stacks pid
    match p.1.getLast? with
    | some last_event =>
      match last_event.data.section_name with
      | none => .error .attributeError
      | some last_name =>
        let interval : Interval := ⟨last_event.timestamp, event.timestamp⟩
        let c : Context := ⟨last_event.data.pid, last_name, interval, last_event⟩
        .ok { st with ctx_stacks := alSet p.2 pid p.1.dropLast,
                      tmw := alAppend st.tmw last_name (.ctx c) }
    | none =>
      .ok { st with ctx_stacks := p.2, warnings := st.warnings + 1 }
  | _ =>
    .ok { st with warnings := st.warnings + 1 }

/-- One `(yield)` iteration of `_async_event_handler` (android.py
424-440).  `event_list = counter_events_by_pid[pid][cookie]` goes
through the shared cookie dict, so a pid is recorded in the outer dict
and the cookie's stack is shared by all pids. -/
def _async_event_handler_step (st : TMWState) (event : Event) :
    Except PyError TMWState :=
  let pid := event.data.pid
  match event.data.cookie with
  | none => .error .attributeError
  | some cookie =>
    let pids' := if pid ∈ st.async_pids then st.async_pids
                 else st.async_pids ++ [pid]
    let p := alGet st.async_by_cookie cookie
    match event.data.atrace_tag with
    | .ASYNC_BEGIN =>
      .ok { st with async_pids := pids',
                    async_by_cookie := alAppend p.2 cookie event }
    | .ASYNC_END =>
      match p.1.getLast? with
      | some last_event =>
        match last_event.data.section_name with
        | none => .error .attributeError
        | some nm =>
          let interval : Interval := ⟨last_event.timestamp, event.timestamp⟩
          let c : Context := ⟨pid, nm, interval, last_event⟩
          .ok { st with async_pids := pids',
                        async_by_cookie := alSet p.2 cookie p.1.dropLast,
                        tmw := alAppend st.tmw nm (.ctx c) }
      | none =>
        .ok { st with async_pids := pids', async_by_cookie := p.2,
                      warnings := st.warnings + 1 }
    | _ =>
      .ok { st with async_pids := pids', async_by_cookie := p.2,
                    warnings := st.warnings + 1 }

/-- One `(yield)` iteration of `_counter_handler` (android.py 463-477);
same shared inner dict as the async handler, keyed by counter name. -/
def _counter_handler_step (st : TMWState) (event : Event) :
    Except PyError TMWState :=
  let pid := event.data.pid
  match event.data.counter_name with
  | none => .error .attributeError
  | some counter_name =>
    let pids' := if pid ∈ st.ctr_pids then st.ctr_pids
                 else st.ctr_pids ++ [pid]
    let p := alGet st.ctr_by_name counter_name
    match p.1.getLast? with
    | some le =>
      match le.data.value with
      | none => .error .attributeError
      | some lv =>
        -- the slot was non-empty: pop it into the carry variables,
        -- then append the new event
        let by_name' := alSet p.2 counter_name (p.1.dropLast ++ [event])
        let interval : Interval := ⟨le.timestamp, event.timestamp⟩
        let c : Counter := ⟨pid, counter_name, lv, interval, some le⟩
        .ok { st with ctr_pids := pids', ctr_by_name := by_name',
                      ctr_last_timestamp := le.timestamp,
                      ctr_last_value := lv, ctr_last_event := some le,
                      tmw := alAppend st.tmw counter_name (.ctr c) }
    | none =>
      -- fresh slot: the carry variables keep whatever the previous
      -- event (of any key) left in them
      let by_name' := alSet p.2 counter_name (p.1 ++ [event])
      let interval : Interval := ⟨st.ctr_last_timestamp, event.timestamp⟩
      let c : Counter := ⟨pid, counter_name, st.ctr_last_value, interval,
                          st.ctr_last_event⟩
      .ok { st with ctr_pids := pids', ctr_by_name := by_name',
                    tmw := alAppend st.tmw counter_name (.ctr c) }

/-! ## Finalize (the coroutines' `GeneratorExit` teardown) -/

/-- Context teardown, inner loop over one pid's remaining stack
(android.py 401-410): every event that is not a `CONTEXT_END` is flushed
as a trailing span ending at the trace duration. -/
def _context_handler_finalize_events (d : ℚ) :
    Index → List Event → Except PyError Index
  | idx, [] => .ok idx
  | idx, e :: rest =>
    if e.data.atrace_tag = .CONTEXT_END then
      _context_handler_finalize_events d idx rest
    else
      match e.data.section_name with
      | none => .error .attributeError
      | some nm =>
        let c : Context := ⟨e.data.pid, nm, ⟨e.timestamp, d⟩, e⟩
        _context_handler_finalize_events d (alAppend idx nm (.ctx c)) rest

/-- Context teardown, outer loop over `counter_events_by_pid`. -/
def _context_handler_finalize (d : ℚ) :
    Index → List (Int × List Event) → Except PyError Index
  | idx, [] => .ok idx
  | idx, (_, evs) :: rest =>
    match _context_handler_finalize_events d idx evs with
    | .error e => .error e
    | .ok idx' => _context_handler_finalize d idx' rest

/-- Async teardown, innermost loop (android.py 442-451): each remaining
event is flushed with the *outer* loop's pid. -/
def _async_event_handler_finalize_events (d : ℚ) (pid : Int) :
    Index → List Event → Except PyError Index
  | idx, [] => .ok idx
  | idx, e :: rest =>
    match e.data.section_name with
    | none => .error .attributeError
    | some nm =>
      let c : Context := ⟨pid, nm, ⟨e.timestamp, d⟩, e⟩
      _async_event_handler_finalize_events d pid (alAppend idx nm (.ctx c)) rest

/-- Async teardown, loop over the (shared) cookie dict for one pid. -/
def _async_event_handler_finalize_cookies (d : ℚ) (pid : Int) :
    Index → List (Int × List Event) → Except PyError Index
  | idx, [] => .ok idx
  | idx, (_, evs) :: rest =>
    match _async_event_handler_finalize_events d pid idx evs with
    | .error e => .error e
    | .ok idx' => _async_event_handler_finalize_cookies d pid idx' rest

/-- Async teardown, outer loop over `counter_events_by_pid.iteritems()`:
every recorded pid iterates the same shared cookie dict. -/
def _async_event_handler_finalize (d : ℚ) (byCookie : List (Int × List Event)) :
    Index → List Int → Except PyError Index
  | idx, [] => .ok idx
  | idx, pid :: rest =>
    match _async_event_handler_finalize_cookies d pid idx byCookie with
    | .error e => .error e
    | .ok idx' => _async_event_handler_finalize d byCookie idx' rest

/-- Counter teardown, innermost loop (android.py 479-489). -/
def _counter_handler_finalize_events (d : ℚ) (pid : Int) (counter_name : String) :
    Index → List Event → Except PyError Index
  | idx, [] => .ok idx
  | idx, e :: rest =>
    match e.data.value with
    | none => .error .attributeError
    | some v =>
      let c : Counter := ⟨pid, counter_name, v, ⟨e.timestamp, d⟩, some e⟩
      _counter_handler_finalize_events d pid counter_name
        (alAppend idx counter_name (.ctr c)) rest

/-- Counter teardown, loop over the (shared) name dict for one pid. -/
def _counter_handler_finalize_names (d : ℚ) (pid : Int) :
    Index → List (String × List Event) → Except PyError Index
  | idx, [] => .ok idx
  | idx, (nm, evs) :: rest =>
    match _counter_handler_finalize_events d pid nm idx evs with
    | .error e => .error e
    | .ok idx' => _counter_handler_finalize_names d pid idx' rest

/-- Counter teardown, outer loop over the recorded pids. -/
def _counter_handler_finalize (d : ℚ) (byName : List (String × List Event)) :
    Index → List Int → Except PyError Index
  | idx, [] => .ok idx
  | idx, pid :: rest =>
    match _counter_handler_finalize_names d pid idx byName with
    | .error e => .error e
    | .ok idx' => _counter_handler_finalize d byName idx' rest

/-! ## The tag dispatcher (`_parse_tmw_events`, android.py 491-522) -/

/-- Route one marker-write event to its correlator by tag
(`_ATRACE_TAG_HANDLERS`). -/
def tmw_dispatch_step (st : TMWState) (event : Event) : Except PyError TMWState :=
  match event.data.atrace_tag with
  | .CONTEXT_BEGIN => _context_handler_step st event
  | .CONTEXT_END => _context_handler_step st event
  | .ASYNC_BEGIN => _async_event_handler_step st event
  | .ASYNC_END => _async_event_handler_step st event
  | .COUNTER => _counter_handler_step st event

/-- The dispatch loop.  `handler_func.send(event)` sits *outside* the
`try/except KeyError` (which only guards the handler-cache lookup), so
an exception raised while handling an event propagates and ends the
loop: embedded as error short-circuiting. -/
def tmw_dispatch : TMWState → List Event → Except PyError TMWState
  | st, [] => .ok st
  | st, e :: rest =>
    match tmw_dispatch_step st e with
    | .error err => .error err
    | .ok st' => tmw_dispatch st' rest

/-- Shut the three coroutines down (android.py 520-522).  The source
closes only the handlers that were actually used, in dict order; a
never-used handler has empty state and its teardown appends nothing, so
closing all three in the fixed order context, async, counter is
observationally the same whenever the per-name append orders agree —
which they do in every statement below (no two finalizers append under
one name). -/
def tmw_close (d : ℚ) (st : TMWState) : Except PyError TMWState :=
  match _context_handler_finalize d st.tmw st.ctx_stacks with
  | .error e => .error e
  | .ok i1 =>
    match _async_event_handler_finalize d st.async_by_cookie i1 st.async_pids with
    | .error e => .error e
    | .ok i2 =>
      match _counter_handler_finalize d st.ctr_by_name i2 st.ctr_pids with
      | .error e => .error e
      | .ok i3 => .ok { st with tmw := i3 }

/-- `_parse_tmw_events`: filter the stream to the marker-write
tracepoint, dispatch every event in order, then close the handlers.
`d` is `self._trace.duration`.  An exception anywhere propagates out of
`_initialize`: no later event is delivered and no teardown runs. -/
def _parse_tmw_events (d : ℚ) (events : List Event) : Except PyError TMWState :=
  match tmw_dispatch initTMW
      (events.filter (fun e => e.tracepoint = "tracing_mark_write")) with
  | .error e => .error e
  | .ok st => tmw_close d st

/-! ## The query layer -/

/-- Modelled from the spec: the external trace context (spec §6),
exposing the total trace duration and the CPU-scheduling lookup
`task_intervals`. -/
structure TaskInterval where
  task : Task
  interval : Interval
deriving DecidableEq, Repr

structure TraceInfo where
  duration : ℚ
  cpu_task_intervals : List TaskInterval
deriving DecidableEq, Repr

/-- The `Android` instance state after the correlation pass: the interval
index plus the instance attributes the derivations create.
`scratch` is `self._jank_intervals_do_not_use`; `fr_cache` and
`jank_cache` model the `@memoize` result cache on `framerate` /
`jank_intervals` (Modelled from the spec §2: "memoizes each derivation
call keyed by its arguments, for the lifetime of the analysis
session"); `input_latencies` is the `self._input_latencies` attribute,
absent (`none`) until `_input_latency_handler` first runs. -/
structure AndroidState where
  tmw : Index
  scratch : List TMWEntry
  fr_cache : List (Option Interval × ℚ)
  jank_cache : List (Option Interval × List TMWEntry)
  input_latencies : Option (List InputLatency)
  trace : TraceInfo
deriving DecidableEq, Repr

def mkAndroid (idx : Index) (tr : TraceInfo) : AndroidState :=
  { tmw := idx, scratch := [], fr_cache := [], jank_cache := [],
    input_latencies := none, trace := tr }

/-- `event_names` (android.py 86-89): the set of index keys.  The source
returns a Python `set`; embedded as the key list, and statements about
it use only membership. -/
def event_names (st : AndroidState) : List String := st.tmw.map Prod.fst

/-- Modelled from the spec: `IntervalList.slice` keeps the entries
overlapping the window (spec §6); `interval=None` keeps everything. -/
def sliceEntries (l : List TMWEntry) : Option Interval → List TMWEntry
  | none => l
  | some w => l.filter (fun e => e.interval.overlapsB w)

/-- Sorted-insertion by interval start. -/
def insertByStart (e : TMWEntry) : List TMWEntry → List TMWEntry
  | [] => [e]
  | x :: xs =>
    if e.interval.start ≤ x.interval.start then e :: x :: xs
    else x :: insertByStart e xs

/-- Modelled from the spec: `sorted_items` (from `ftrace.composites`,
not under `src/`) merges several series in ascending start order
(spec §4.5 "merges all series in sorted start-time order"). -/
def sorted_items (ls : List (List TMWEntry)) : List TMWEntry :=
  (ls.foldr (· ++ ·) []).foldr insertByStart []

/-- Python `needle in hay` on strings, over the character lists. -/
def charListPre : List Char → List Char → Bool
  | [], _ => true
  | _ :: _, [] => false
  | a :: as, b :: bs => a = b && charListPre as bs

def charListSub (n : List Char) : List Char → Bool
  | [] => charListPre n []
  | b :: bs => charListPre n (b :: bs) || charListSub n bs

def strIn (needle hay : String) : Bool := charListSub needle.toList hay.toList

/-- The task filter `filter(lambda it: it.event.task == task, intervals)`
(android.py 110).  On a `Counter` entry whose `event` is `None` the
source would raise `AttributeError`; no call made by the source reaches
that path (its internal calls pass `task=None`, and the app-launch path
filters `Context` entries, which always carry an event), so the
embedding returns `false` there. -/
def entryTaskEq (e : TMWEntry) (t : Task) : Bool :=
  match e.event with
  | some ev => ev.task = t
  | none => false

/-- `event_intervals` (android.py 91-112).  With a `name` and
`match_exact=True` the lookup `self._tmw_intervals_by_name[name]` is a
`defaultdict` read: it *inserts* the key when absent.  The call both
returns the (sliced, task-filtered) entries and yields the possibly
grown index, so the instance state is threaded through.  The
`@memoize` cache on this query is not modelled: the query's result is
determined by the index, and the only mutation (`alGet`'s key
insertion) never changes any later result, so recomputation and cache
hit agree. -/
def event_intervals (st : AndroidState) (name : Option String)
    (task : Option Task) (interval : Option Interval)
    (match_exact : Bool) : List TMWEntry × AndroidState :=
  let p : List TMWEntry × Index :=
    match name with
    | none => (sorted_items (st.tmw.map Prod.snd), st.tmw)
    | some n =>
      if match_exact then alGet st.tmw n
      else (sorted_items ((st.tmw.filter (fun kv => strIn n kv.1)).map Prod.snd),
            st.tmw)
  let intervals := sliceEntries p.1 interval
  let intervals :=
    match task with
    | none => intervals
    | some t => intervals.filter (fun e => entryTaskEq e t)
  (intervals, { st with tmw := p.2 })

/-! ## Frame rate and jank (android.py 120-158) -/

/-- `VSYNC = float(1/60.)` (android.py 39). -/
def VSYNC : ℚ := 1 / 60

/-- One iteration of the `framerate` loop (android.py 138-147): a vsync
interval shorter than `2*VSYNC` adds its duration to `present_time` and
its contained `postFramebuffer` count to `presented_frames`, and is
recorded in the jank scratch list when that count is zero; any other
vsync interval is skipped entirely.  The accumulator carries
`(present_time, presented_frames, instance state)`. -/
def framerate_step (acc : ℚ × ℚ × AndroidState) (v : TMWEntry) :
    ℚ × ℚ × AndroidState :=
  let d := v.interval.duration
  if d < 2 * VSYNC then
    let p := event_intervals acc.2.2 (some "postFramebuffer") none
               (some v.interval) true
    let temp : ℚ := p.1.length
    let st' := if p.1.length = 0 then
                 { p.2 with scratch := p.2.scratch ++ [v] }
               else p.2
    (acc.1 + d, acc.2.1 + temp, st')
  else acc

/-- The body of `framerate` up to the final division: reset the scratch
list, query the vsync intervals, run the loop.  Returns
`(present_time, presented_frames, state)`. -/
def framerate_body (st : AndroidState) (interval : Option Interval) :
    ℚ × ℚ × AndroidState :=
  let p := event_intervals { st with scratch := [] } (some "VSYNC-sf") none
             interval true
  p.1.foldl framerate_step (0, 0, p.2)

/-- `framerate` (android.py 120-149), `@memoize`d on its argument.  On a
cache miss the body runs and ends in the bare float division
`presented_frames/present_time`: a zero `present_time` raises Python's
`ZeroDivisionError`, in which case nothing is cached (the exception
propagates before the return). -/
def framerate (st : AndroidState) (interval : Option Interval) :
    Except PyError ℚ × AndroidState :=
  match alLookup st.fr_cache interval with
  | some v => (.ok v, st)
  | none =>
    let b := framerate_body st interval
    if b.1 = 0 then (.error .zeroDivisionError, b.2.2)
    else (.ok (b.2.1 / b.1),
          { b.2.2 with fr_cache := b.2.2.fr_cache ++ [(interval, b.2.1 / b.1)] })

/-- The jank list `framerate`'s loop would record for this window on
this state (the shared computation of spec §4.6). -/
def janks_of (st : AndroidState) (interval : Option Interval) : List TMWEntry :=
  (framerate_body st interval).2.2.scratch

/-- `jank_intervals` (android.py 151-158), `@memoize`d: call `framerate`
(possibly a cache hit that recomputes nothing) and return whatever the
scratch list `_jank_intervals_do_not_use` currently holds. -/
def jank_intervals (st : AndroidState) (interval : Option Interval) :
    Except PyError (List TMWEntry) × AndroidState :=
  match alLookup st.jank_cache interval with
  | some r => (.ok r, st)
  | none =>
    let p := framerate st interval
    match p.1 with
    | .error e => (.error e, p.2)
    | .ok _ =>
      (.ok p.2.scratch,
       { p.2 with jank_cache := p.2.jank_cache ++ [(interval, p.2.scratch)] })

/-! ## Input latency (android.py 193-261) -/

/-- Modelled from the spec: `filter_by_task(all_tasks, 'name', value,
'any')` (from `ftrace.common`, not under `src/`) keeps the scheduling
intervals of tasks with the given name (spec §4.7 "find IRQ spans of
the given name"). -/
def filter_by_task (l : List TaskInterval) (name : String) : List TaskInterval :=
  l.filter (fun ti => ti.task.name = name)

/-- Modelled from the spec: slicing a list of scheduling intervals to a
window, untrimmed (spec §6): the entries overlapping the window. -/
def sliceTasks (l : List TaskInterval) (w : Interval) : List TaskInterval :=
  l.filter (fun ti => ti.interval.overlapsB w)

/-- `_input_intervals` (android.py 217-234): synthetic windows from the
end of one `InputReader` interval to the end of the next, starting at
`0.0`. -/
def input_reader_windows (last_timestamp : ℚ) :
    List TaskInterval → List Interval
  | [] => []
  | ir :: rest =>
    ⟨last_timestamp, ir.interval.stop⟩ ::
      input_reader_windows ir.interval.stop rest

/-- One iteration of the `_input_latency_handler` loop (android.py
236-259) for window `w`: skip if no IRQ of the wanted name falls in the
window, else resolve the latency end through the first
`deliverInputEvent` after the window and the first `postFramebuffer`
after that (defaulting to the start itself, a zero-length record). -/
def input_latency_step (touch_irqs : List TaskInterval) (d : ℚ)
    (acc : List InputLatency × AndroidState) (w : Interval) :
    List InputLatency × AndroidState :=
  let irqs := sliceTasks touch_irqs w
  match irqs with
  | [] => acc
  | irq0 :: _ =>
    let start_ts := irq0.interval.start
    let post_ir : Interval := ⟨w.stop, d⟩
    let p := event_intervals acc.2 (some "deliverInputEvent") none
               (some post_ir) true
    let q : ℚ × AndroidState :=
      match p.1 with
      | [] => (start_ts, p.2)
      | di0 :: _ =>
        let post_di : Interval := ⟨di0.interval.start, d⟩
        let r := event_intervals p.2 (some "postFramebuffer") none
                   (some post_di) true
        match r.1 with
        | [] => (start_ts, r.2)
        | pfb0 :: _ => (pfb0.interval.stop, r.2)
    let ii : Interval := ⟨start_ts, q.1⟩
    (acc.1 ++ [⟨ii, ii.duration⟩], q.2)

/-- `_input_latency_handler` (android.py 208-261): computes every input
latency record for `irq_name` and stores the list on the instance as
`self._input_latencies`. -/
def _input_latency_handler (st : AndroidState) (irq_name : String) :
    List InputLatency × AndroidState :=
  let all_tasks := st.trace.cpu_task_intervals
  let touch_irqs := filter_by_task all_tasks irq_name
  let ws := input_reader_windows 0 (filter_by_task all_tasks "InputReader")
  let p := ws.foldl (input_latency_step touch_irqs st.trace.duration) ([], st)
  (p.1, { p.2 with input_latencies := some p.1 })

/-- Modelled from the spec: slicing the stored latency list to a window
(spec §6), `interval=None` keeps everything. -/
def sliceLatencies (l : List InputLatency) : Option Interval → List InputLatency
  | none => l
  | some w => l.filter (fun il => il.interval.overlapsB w)

/-- `input_latency` (android.py 193-205): `try: return
self._input_latencies.slice(...)` — when the instance attribute already
exists the stored list is returned (sliced) and `irq_name` is never
consulted; only the first call (AttributeError path) computes it.
The `@memoize` wrapper is keyed on `(irq_name, interval)`, so a call
with a different IRQ name is always a cache miss and runs this body;
it is therefore not modelled. -/
def input_latency (st : AndroidState) (irq_name : String)
    (interval : Option Interval) : List InputLatency × AndroidState :=
  match st.input_latencies with
  | some l => (sliceLatencies l interval, st)
  | none =>
    let p := _input_latency_handler st irq_name
    (sliceLatencies p.1 interval, p.2)

/-! ## App-launch latency emission (android.py 351-371)

`_start_launch_time` and `_end_launch_time` resolve a launch's start
and end through the external CPU-scheduling collaborator and the
reverse traversal scan; each returns a float or `None`.  The emission
loop is embedded over pre-resolved `(task, start, end)` triples, and the
emission guard is the source's exact expression. -/

/-- Python truthiness of a float-or-None. -/
def pyTruthy : Option ℚ → Bool
  | none => false
  | some x => decide (x ≠ 0)

/-- Python `a and b` on float-or-None values. -/
def pyAnd (a b : Option ℚ) : Option ℚ := if pyTruthy a then b else a

/-- The guard on android.py line 366:
`(start_time and end_time) is not None`. -/
def launch_emit_guard (start_time end_time : Option ℚ) : Bool :=
  (pyAnd start_time end_time).isSome

/-- One iteration of the `app_launch_latencies` loop for an event whose
start/end resolved to `s`/`e`: when the guard passes, build
`Interval(start_time, end_time)` and its duration — arithmetic on a
`None` end raises `TypeError`. -/
def launch_step (t : Task) (s e : Option ℚ) :
    Except PyError (Option LaunchLatency) :=
  if launch_emit_guard s e then
    match s, e with
    | some sv, some ev => .ok (some ⟨t, ⟨sv, ev⟩, ev - sv⟩)
    | _, _ => .error .typeError
  else .ok none

/-- The `app_launch_latencies` accumulation loop over the resolved
launch events (task filter already applied, as `task=None` leaves every
event in). -/
def app_launch_latencies_resolved :
    List (Task × Option ℚ × Option ℚ) → Except PyError (List LaunchLatency)
  | [] => .ok []
  | (t, s, e) :: rest =>
    match launch_step t s e with
    | .error err => .error err
    | .ok none => app_launch_latencies_resolved rest
    | .ok (some ll) =>
      match app_launch_latencies_resolved rest with
      | .error err => .error err
      | .ok ls => .ok (ll :: ls)

/-! ## Concrete traces used in the statements below -/

/-- A `CONTEXT_BEGIN` marker-write event. -/
def cbEvent (pid : Int) (nm : String) (ts : ℚ) : Event :=
  ⟨ts, ⟨pid, "task"⟩, "tracing_mark_write",
   ⟨.CONTEXT_BEGIN, pid, none, some nm, none, none⟩⟩

/-- A `CONTEXT_END` marker-write event. -/
def ceEvent (pid : Int) (ts : ℚ) : Event :=
  ⟨ts, ⟨pid, "task"⟩, "tracing_mark_write",
   ⟨.CONTEXT_END, pid, none, none, none, none⟩⟩

/-- The index produced by a successful correlation pass ( `[]` when the
pass aborted — only applied to passes shown to succeed). -/
def parsedIndex (r : Except PyError TMWState) : Index :=
  match r with
  | .ok st => st.tmw
  | .error _ => []

/-- A session with an empty trace of duration 10. -/
def stEmpty : AndroidState := mkAndroid [] ⟨10, []⟩

/-- Spec §8 boundary scenario: four `VSYNC-sf` spans of durations
16.6 ms, 16.6 ms, 16.6 ms, 40 ms (produced by the context correlator on
pid 1) with exactly one `postFramebuffer` span (pid 2) inside each of
the three short ones; trace duration 1 s. -/
def evC9 : List Event :=
  [ cbEvent 1 "VSYNC-sf" 0,
    cbEvent 2 "postFramebuffer" 0.005, ceEvent 2 0.006,
    ceEvent 1 0.0166,
    cbEvent 1 "VSYNC-sf" 0.0166,
    cbEvent 2 "postFramebuffer" 0.02, ceEvent 2 0.021,
    ceEvent 1 0.0332,
    cbEvent 1 "VSYNC-sf" 0.0332,
    cbEvent 2 "postFramebuffer" 0.04, ceEvent 2 0.041,
    ceEvent 1 0.0498,
    cbEvent 1 "VSYNC-sf" 0.0498,
    ceEvent 1 0.0898 ]

def stC9 : AndroidState := mkAndroid (parsedIndex (_parse_tmw_events 1 evC9)) ⟨1, []⟩

/-- Two `VSYNC-sf` spans `[0, 0.01)` and `[0.02, 0.03)` with one
`postFramebuffer` span `[0.002, 0.003)` inside the first only. -/
def evC4 : List Event :=
  [ cbEvent 1 "VSYNC-sf" 0,
    cbEvent 2 "postFramebuffer" 0.002, ceEvent 2 0.003,
    ceEvent 1 0.01,
    cbEvent 1 "VSYNC-sf" 0.02,
    ceEvent 1 0.03 ]

def stC4 : AndroidState := mkAndroid (parsedIndex (_parse_tmw_events 1 evC4)) ⟨1, []⟩

/-- The `ASYNC_BEGIN` of C1's failing input: pid 1, cookie 5,
section `"s"`, at `t = 1`. -/
def asyncBeginC1 : Event :=
  ⟨1, ⟨1, "t1"⟩, "tracing_mark_write",
   ⟨.ASYNC_BEGIN, 1, some 5, some "s", none, none⟩⟩

/-- The `ASYNC_END` of C1's failing input: a *different* pid 2, same
cookie 5, at `t = 2`. -/
def asyncEndC1 : Event :=
  ⟨2, ⟨2, "t2"⟩, "tracing_mark_write",
   ⟨.ASYNC_END, 2, some 5, none, none, none⟩⟩

/-- C2's failing input: `COUNTER(pid=1, "battery", value=50)` at
`t = 1`, then `COUNTER(pid=2, "battery", value=40)` at `t = 2`. -/
def counterC2a : Event :=
  ⟨1, ⟨1, "t1"⟩, "tracing_mark_write",
   ⟨.COUNTER, 1, none, none, some "battery", some 50⟩⟩

def counterC2b : Event :=
  ⟨2, ⟨2, "t2"⟩, "tracing_mark_write",
   ⟨.COUNTER, 2, none, none, some "battery", some 40⟩⟩

/-- C8's failing input: two `ASYNC_BEGIN`s left pending at stream end,
one under key (pid 1, cookie 1), one under key (pid 2, cookie 2). -/
def asyncBeginC8x : Event :=
  ⟨1, ⟨1, "t1"⟩, "tracing_mark_write",
   ⟨.ASYNC_BEGIN, 1, some 1, some "x", none, none⟩⟩

def asyncBeginC8y : Event :=
  ⟨2, ⟨2, "t2"⟩, "tracing_mark_write",
   ⟨.ASYNC_BEGIN, 2, some 2, some "y", none, none⟩⟩

/-- C6's malformed event: an `ASYNC_BEGIN` whose payload lacks the
`cookie` field its tag requires. -/
def badAsyncC6 : Event :=
  ⟨1, ⟨1, "t1"⟩, "tracing_mark_write",
   ⟨.ASYNC_BEGIN, 1, none, some "s", none, none⟩⟩

/-- The `postFramebuffer` span of `evC4` as it sits in the index. -/
def pfbC4Entry : TMWEntry :=
  .ctx ⟨2, "postFramebuffer", ⟨0.002, 0.003⟩, cbEvent 2 "postFramebuffer" 0.002⟩

/-- The second `VSYNC-sf` span of `evC4` (the one with no framebuffer
post) as it sits in the index. -/
def vsync2C4Entry : TMWEntry :=
  .ctx ⟨1, "VSYNC-sf", ⟨0.02, 0.03⟩, cbEvent 1 "VSYNC-sf" 0.02⟩

/-- The window `[0, 0.015)` that contains only the first vsync span of
`evC4`. -/
def w1C4 : Interval := ⟨0, 0.015⟩

/-- A vsync entry of duration `0.04 ≥ 2·VSYNC`. -/
def bigVsyncEntry : TMWEntry :=
  .ctx ⟨1, "VSYNC-sf", ⟨0, 0.04⟩, cbEvent 1 "VSYNC-sf" 0⟩

/-! ## Helper lemmas -/

/-- A `defaultdict` read is stable: reading the same key again returns
the same value and leaves the dict unchanged. -/
theorem alGet_alGet {κ α : Type} [DecidableEq κ]
    (l : List (κ × List α)) (k : κ) : alGet (alGet l k).2 k = alGet l k := by
  induction l with
  | nil => simp [alGet]
  | cons kv rest ih =>
    obtain ⟨k', v⟩ := kv
    by_cases hk : k' = k
    · simp [alGet, hk]
    · simp only [alGet, if_neg hk]
      rw [ih]

/-- A `defaultdict` read never changes the value stored under any
present key. -/
theorem alLookup_alGet {κ α : Type} [DecidableEq κ]
    (l : List (κ × List α)) (k m : κ) (v : List α)
    (h : alLookup l m = some v) : alLookup (alGet l k).2 m = some v := by
  induction l with
  | nil => simp [alLookup] at h
  | cons kv rest ih =>
    obtain ⟨k', v'⟩ := kv
    by_cases hk : k' = k
    · subst hk
      by_cases hm : k' = m
      · subst hm
        simp [alLookup] at h
        simp [alGet, alLookup, h]
      · simp only [alLookup, if_neg hm] at h
        simp [alGet, alLookup, hm, h]
    · by_cases hm : k' = m
      · subst hm
        simp [alLookup] at h
        simp [alGet, hk, alLookup, h]
      · simp only [alLookup, if_neg hm] at h
        simp [alGet, hk, alLookup, hm, ih h]

/-- Dispatch over a concatenation: the tail is dispatched only when the
front succeeds. -/
theorem tmw_dispatch_append (xs ys : List Event) (st : TMWState) :
    tmw_dispatch st (xs ++ ys) =
      match tmw_dispatch st xs with
      | .error e => .error e
      | .ok st' => tmw_dispatch st' ys := by
  induction xs generalizing st with
  | nil => rfl
  | cons x xs ih =>
    simp only [List.cons_append, tmw_dispatch]
    cases tmw_dispatch_step st x with
    | error e => rfl
    | ok st' => exact ih st'

/-! ## The claims -/

/-- C1: the claim says the async pending stack is keyed by the pair
(pid, cookie), so that an `ASYNC_END` for `(2, 5)` whose only pending
`ASYNC_BEGIN` with cookie 5 was pushed under pid 1 is dropped with a
MissingStartMarker report and no span.  On the code the `ASYNC_END`
*matches* that cross-pid `ASYNC_BEGIN`: the pass emits one span `"s"`
(with the end event's pid 2 and interval `[1, 2)`) and reports no
warning, because every pid shares one cookie-keyed stack dict. -/
theorem C1_async_end_matches_across_pids :
    (_parse_tmw_events 10 [asyncBeginC1, asyncEndC1]).map
      (fun st => (alLookup st.tmw "s", st.warnings)) =
    .ok (some [.ctx ⟨2, "s", ⟨1, 2⟩, asyncBeginC1⟩], 0) := by rfl

/-- C2: the claim says counter state is per (pid, counter-name) key and
the first sample of a fresh key reports sentinel value −1 over an
interval starting at sentinel timestamp 0.  On the code the key
(2, "battery") is fresh — only (1, "battery") was ever seen — yet its
first sample carries value 50 and interval `[1, 2)` (the pid-1 sample's
value and timestamp), because every pid shares one name-keyed dict; the
finalize flush then also emits the last slot once per recorded pid. -/
theorem C2_counter_fresh_key_carries_foreign_value :
    (_parse_tmw_events 10 [counterC2a, counterC2b]).map
      (fun st => alLookup st.tmw "battery") =
    .ok (some
      [ .ctr ⟨1, "battery", -1, ⟨0, 1⟩, none⟩,
        .ctr ⟨2, "battery", 50, ⟨1, 2⟩, some counterC2a⟩,
        .ctr ⟨1, "battery", 40, ⟨2, 10⟩, some counterC2b⟩,
        .ctr ⟨2, "battery", 40, ⟨2, 10⟩, some counterC2b⟩ ]) ∧
    (50 : ℚ) ≠ -1 := by
  constructor
  · rfl
  · norm_num

/-- C8: the claim says every key with n unmatched pending BEGINs yields
exactly n trailing spans at finalize.  For the async correlator with two
pending `ASYNC_BEGIN`s under the distinct keys (pid 1, cookie 1) and
(pid 2, cookie 2) — n = 1 each, so 2 trailing spans expected — the code
emits 4: the outer finalize loop runs the shared cookie dict once per
recorded pid, flushing every pending event under *every* pid. -/
theorem C8_async_finalize_duplicates_per_pid :
    (_parse_tmw_events 10 [asyncBeginC8x, asyncBeginC8y]).map
      (fun st => (alLookup st.tmw "x", alLookup st.tmw "y")) =
    .ok (some [.ctx ⟨1, "x", ⟨1, 10⟩, asyncBeginC8x⟩,
               .ctx ⟨2, "x", ⟨1, 10⟩, asyncBeginC8x⟩],
         some [.ctx ⟨1, "y", ⟨2, 10⟩, asyncBeginC8y⟩,
               .ctx ⟨2, "y", ⟨2, 10⟩, asyncBeginC8y⟩]) := by rfl

/-- C7: the claim says a LaunchLatency is emitted iff both start and end
resolved to non-None, and in particular nothing is emitted when the
start resolved to exactly 0.0 with an unresolved end.  The code's guard
`(start_time and end_time) is not None` evaluates, for
`start_time = 0.0` (falsy) and `end_time = None`, to
`0.0 is not None = True`: the code *does* take the emission branch and
then faults with a `TypeError` building the interval's duration from
`None`, instead of skipping the event. -/
theorem C7_launch_guard_passes_on_zero_start :
    launch_emit_guard (some 0) none = true ∧
    ¬((some (0 : ℚ)).isSome ∧ (none : Option ℚ).isSome) ∧
    app_launch_latencies_resolved [(⟨1, "app"⟩, some 0, none)] =
      .error .typeError := by
  refine ⟨by rfl, by simp, by rfl⟩

/-- C3 (counterexample): the claim says no query mutates the Interval
Index, explicitly including `event_intervals` with an exact-match name
never observed in the trace.  On the code that very call reads the
backing `defaultdict`, which inserts the unseen key: after
`event_intervals(name="zzz")` on a session whose trace produced no
events at all, `event_names` contains `"zzz"`. -/
theorem C3_exact_query_inserts_unseen_name :
    "zzz" ∉ event_names stEmpty ∧
    "zzz" ∈ event_names ((event_intervals stEmpty (some "zzz") none none true).2) := by
  constructor
  · simp [event_names, stEmpty, mkAndroid]
  · simp [event_names, event_intervals, stEmpty, mkAndroid, alGet]

/-- C3 (amended): an `event_intervals` call never changes the entries
stored under a name already present in the index, and repeating the
call with identical arguments returns the same value and leaves the
session state exactly where the first call left it; the only mutation
is the insertion of an absent exact-match key with an empty entry
list. -/
theorem C3_event_intervals_stable (st : AndroidState) (name : Option String)
    (task : Option Task) (w : Option Interval) (me : Bool) :
    (event_intervals (event_intervals st name task w me).2 name task w me).1
      = (event_intervals st name task w me).1 ∧
    (event_intervals (event_intervals st name task w me).2 name task w me).2
      = (event_intervals st name task w me).2 ∧
    ∀ m v, alLookup st.tmw m = some v →
      alLookup (event_intervals st name task w me).2.tmw m = some v := by
  rcases name with _ | n
  · exact ⟨rfl, rfl, fun m v h => h⟩
  · cases me with
    | false => exact ⟨rfl, rfl, fun m v h => h⟩
    | true =>
      refine ⟨?_, ?_, fun m v h => alLookup_alGet st.tmw n m v h⟩
      · simp [event_intervals, alGet_alGet]
      · simp [event_intervals, alGet_alGet]

/-- C3 (witness for the stability theorem): on the `evC4` session,
querying `"VSYNC-sf"` exactly leaves the `"postFramebuffer"` entries
untouched. -/
theorem C3_event_intervals_stable_witness :
    alLookup ((event_intervals stC4 (some "VSYNC-sf") none none true).2).tmw
        "postFramebuffer" = some [pfbC4Entry] :=
  (C3_event_intervals_stable stC4 (some "VSYNC-sf") none none true).2.2
    "postFramebuffer" [pfbC4Entry] (by rfl)

/-- C4 (counterexample): the claim says `jank_intervals(w)` always
returns the jank set that the frame-rate computation for the same `w`
produces, whatever calls came before.  On the `evC4` session, after
`framerate([0, 0.015))` (whose computation records no jank) and then
`framerate(None)` (which records the second vsync span as jank),
`jank_intervals([0, 0.015))` returns that second span: the memoized
`framerate` recomputes nothing and the scratch list still holds the
other window's janks. -/
theorem C4_jank_returns_stale_scratch :
    (jank_intervals (framerate (framerate stC4 (some w1C4)).2 none).2
        (some w1C4)).1 = .ok [vsync2C4Entry] ∧
    janks_of stC4 (some w1C4) = [] ∧
    ([vsync2C4Entry] : List TMWEntry) ≠ [] := by
  refine ⟨by with_unfolding_all rfl, by with_unfolding_all rfl, by simp⟩

/-- C4 (amended): `jank_intervals(w)` agrees with the jank list of the
shared frame-rate computation for `w` only when neither `jank_intervals`
nor `framerate` already has a cached result for `w` (then the body
really runs); after `framerate(w1); framerate(w2)` the call
`jank_intervals(w1)` instead returns the scratch list of the most recent
non-cached computation, as the counterexample shows. -/
theorem C4_jank_correct_on_fresh_window (st : AndroidState)
    (w : Option Interval)
    (h1 : alLookup st.jank_cache w = none)
    (h2 : alLookup st.fr_cache w = none)
    (h3 : (framerate_body st w).1 ≠ 0) :
    (jank_intervals st w).1 = .ok (janks_of st w) := by
  unfold jank_intervals framerate
  rw [h1, h2]
  simp [janks_of, if_neg h3]

/-- C4 (witness): on the fresh `evC4` session, `jank_intervals(None)`
does return the jank list of the shared computation. -/
theorem C4_jank_correct_witness :
    (jank_intervals stC4 none).1 = .ok (janks_of stC4 none) :=
  C4_jank_correct_on_fresh_window stC4 none rfl rfl (by with_unfolding_all decide)

/-- C5 (counterexample): the claim says a window with zero active vsync
time yields a distinct, non-fatal UndefinedMetric condition, not a
generic arithmetic fault.  On a session whose trace produced no
`VSYNC-sf` spans at all, `framerate` performs the bare division
`presented_frames/present_time` with `present_time = 0.0` and raises
Python's generic `ZeroDivisionError` — which is not the distinct
UndefinedMetric outcome. -/
theorem C5_zero_active_time_is_generic_fault :
    (framerate stEmpty none).1 = .error .zeroDivisionError ∧
    (Except.error .zeroDivisionError : Except PyError ℚ) ≠
      .error .undefinedMetric := by
  refine ⟨by rfl, by simp⟩

/-- C5 (amended): on a cache miss, `framerate` raises the generic
`ZeroDivisionError` arithmetic fault when the accumulated active vsync
time is zero, and otherwise returns `presented_frames / present_time`. -/
theorem C5_framerate_division (st : AndroidState) (w : Option Interval)
    (hmiss : alLookup st.fr_cache w = none) :
    ((framerate_body st w).1 = 0 →
      (framerate st w).1 = .error .zeroDivisionError) ∧
    ((framerate_body st w).1 ≠ 0 →
      (framerate st w).1 =
        .ok ((framerate_body st w).2.1 / (framerate_body st w).1)) := by
  unfold framerate
  rw [hmiss]
  constructor
  · intro h
    simp [h]
  · intro h
    simp [if_neg h]

/-- C5 (witness): applying the division theorem to the empty session,
whose active time is zero. -/
theorem C5_framerate_division_witness :
    (framerate stEmpty none).1 = .error .zeroDivisionError ∧
    (framerate_body stEmpty none).1 = 0 :=
  ⟨(C5_framerate_division stEmpty none rfl).1 (by rfl), by rfl⟩

/-- C6 (counterexample): the claim says an error in a single event — a
payload lacking a field required by its tag — causes only that event to
be skipped while all later events are still delivered.  On the code an
`ASYNC_BEGIN` without a `cookie` raises inside `handler_func.send`,
which sits outside the `try/except KeyError`: the whole pass aborts with
the exception and the well-formed begin/end pair after it (which alone
yields the span `"a"`) produces nothing. -/
theorem C6_malformed_event_aborts_pass :
    _parse_tmw_events 10 [badAsyncC6, cbEvent 1 "a" 2, ceEvent 1 3] =
      .error .attributeError ∧
    (_parse_tmw_events 10 [cbEvent 1 "a" 2, ceEvent 1 3]).map
      (fun st => alLookup st.tmw "a") =
    .ok (some [.ctx ⟨1, "a", ⟨2, 3⟩, cbEvent 1 "a" 2⟩]) := by
  refine ⟨by rfl, by rfl⟩

/-- C6 (amended): an exception raised while handling one marker-write
event propagates out of the dispatch loop: the pass fails with that
exception, no later event is delivered — the result does not depend on
the remainder of the stream — and no finalize flush runs. -/
theorem C6_error_propagates (pre : List Event) (bad : Event)
    (rest : List Event) (d : ℚ) (st : TMWState) (err : PyError)
    (hpre : tmw_dispatch initTMW
      (pre.filter (fun e => e.tracepoint = "tracing_mark_write")) = .ok st)
    (hbad : bad.tracepoint = "tracing_mark_write")
    (hstep : tmw_dispatch_step st bad = .error err) :
    _parse_tmw_events d (pre ++ bad :: rest) = .error err := by
  have hf : (bad :: rest).filter (fun e => e.tracepoint = "tracing_mark_write")
      = bad :: rest.filter (fun e => e.tracepoint = "tracing_mark_write") := by
    simp [List.filter_cons, hbad]
  unfold _parse_tmw_events
  rw [List.filter_append, tmw_dispatch_append, hpre, hf]
  simp only [tmw_dispatch, hstep]

/-- C6 (witness): the malformed async begin aborts a pass that still had
a well-formed event pending after it. -/
theorem C6_error_propagates_witness :
    _parse_tmw_events 10 ([] ++ badAsyncC6 :: [cbEvent 1 "a" 2]) =
      .error .attributeError :=
  C6_error_propagates [] badAsyncC6 [cbEvent 1 "a" 2] 10 initTMW
    .attributeError rfl rfl rfl

/-- C9: a vsync interval whose duration is at least `2·VSYNC` (twice the
nominal 1/60 s period) contributes nothing to the frame-rate loop —
neither to the active-time and frame accumulators nor to the jank
scratch list — and on the spec §8 boundary trace (three 16.6 ms vsync
spans each holding exactly one `postFramebuffer` span, plus one 40 ms
span), `framerate` returns `3 / 0.0498` and `jank_intervals` is
empty. -/
theorem C9_long_vsync_excluded_boundary_scenario :
    (∀ (acc : ℚ × ℚ × AndroidState) (l1 l2 : List TMWEntry) (v : TMWEntry),
      2 * VSYNC ≤ v.interval.duration →
      (l1 ++ v :: l2).foldl framerate_step acc =
        (l1 ++ l2).foldl framerate_step acc) ∧
    (framerate stC9 none).1 = .ok ((3 : ℚ) / 0.0498) ∧
    (jank_intervals (framerate stC9 none).2 none).1 = .ok [] := by
  refine ⟨?_, by with_unfolding_all rfl, by with_unfolding_all rfl⟩
  intro acc l1 l2 v h
  have hstep : framerate_step (l1.foldl framerate_step acc) v =
      l1.foldl framerate_step acc := by
    unfold framerate_step
    rw [if_neg (not_lt.mpr h)]
  rw [List.foldl_append, List.foldl_cons, hstep, ← List.foldl_append]

/-- C9 (witness): the 40 ms vsync entry is long enough and is dropped by
the loop. -/
theorem C9_long_vsync_excluded_witness :
    2 * VSYNC ≤ bigVsyncEntry.interval.duration ∧
    ([bigVsyncEntry] : List TMWEntry).foldl framerate_step (0, 0, stEmpty) =
      ([] : List TMWEntry).foldl framerate_step (0, 0, stEmpty) :=
  ⟨by with_unfolding_all decide,
   C9_long_vsync_excluded_boundary_scenario.1 (0, 0, stEmpty) [] []
     bigVsyncEntry (by with_unfolding_all decide)⟩

/-- C10: once `input_latency` has run for some IRQ name, the result list
is stored on the instance (`self._input_latencies`) and every later call
— here with an arbitrary, possibly different IRQ name and window —
returns that stored irq1-derived list merely sliced to the new window,
leaving the session state untouched; the new IRQ name is never
consulted. -/
theorem C10_input_latency_cached_ignores_irq (st : AndroidState)
    (irq1 irq2 : String) (w1 w2 : Option Interval)
    (h : st.input_latencies = none) :
    (input_latency (input_latency st irq1 w1).2 irq2 w2).1
      = sliceLatencies (_input_latency_handler st irq1).1 w2 ∧
    (input_latency (input_latency st irq1 w1).2 irq2 w2).2
      = (input_latency st irq1 w1).2 := by
  unfold input_latency
  rw [h]
  exact ⟨rfl, rfl⟩

/-- C10 (witness): on the empty-trace session, a second call with a
different IRQ name returns the first call's (empty) stored list. -/
theorem C10_input_latency_cached_witness :
    stEmpty.input_latencies = none ∧
    (input_latency (input_latency stEmpty "irq/13-fts_touc" none).2
        "irq/99-other" none).1
      = sliceLatencies (_input_latency_handler stEmpty "irq/13-fts_touc").1 none :=
  ⟨rfl, (C10_input_latency_cached_ignores_irq stEmpty "irq/13-fts_touc"
     "irq/99-other" none none rfl).1⟩

end Ftrace
